import Mathlib

/-!
Verification of the data-ingestion-and-retrieval subsystem of the
AI-Voice-Agent repository: the chunker and ingestion pipeline of
`app/services/file_processor.py`, the vector index client of
`app/services/vector_service.py`, and the MCP protocol server of
`app/services/mcp_server.py` (all under `mvp/data-integration-service`).

Python strings are embedded as `List Char`; Python string primitives
(slicing, `rfind`, `strip`) are reproduced with Python's index
normalisation, since the chunking loop of `_split_text` can drive its
`start` cursor to values at or below zero.  Loops that Python runs
unboundedly are embedded with a fuel parameter: a result of `none` for
every fuel means the Python loop never exits.  External collaborators
(the qdrant index, the OpenAI embedding call, the SQL store behind
`DatabaseQueryService`, the semantic-search service) are parameters of
the embedded functions: a `Services`-style argument supplies their
outcome, an `Except` outcome standing for a raised exception, which is
how the source's own `try`/`except` blocks treat those calls.
-/

/-! ## Python string primitives -/

/-- Whitespace as Python's `str.strip()` treats it on the ASCII inputs
that occur here: space, tab, newline, carriage return, vertical tab,
form feed. -/
def pyIsSpace (c : Char) : Bool :=
  c = ' ' || c = '\t' || c = '\n' || c = '\r' || c = '\x0b' || c = '\x0c'

/-- Python `s.strip()`: drop leading and trailing whitespace. -/
def pyStrip (s : List Char) : List Char :=
  ((s.dropWhile pyIsSpace).reverse.dropWhile pyIsSpace).reverse

/-- Python's slice-index normalisation for a string of length `n`:
a negative index counts from the end, then the result is clamped
into `[0, n]`. -/
def pyNorm (n : Nat) (i : Int) : Nat :=
  (min (max (if i < 0 then i + n else i) 0) (n : Int)).toNat

/-- Python `s[a:b]` on a string of length `s.length`. -/
def pySlice (s : List Char) (a b : Int) : List Char :=
  let na := pyNorm s.length a
  let nb := pyNorm s.length b
  (s.drop na).take (nb - na)

/-- Python `s.rfind(' ', a, b)`: the highest index `i` with
`a ≤ i < b` (after slice normalisation of `a` and `b`) such that
`s[i]` is a space, and `-1` when there is none. -/
def pyRfindSpace (s : List Char) (a b : Int) : Int :=
  let na := pyNorm s.length a
  let nb := pyNorm s.length b
  s.enum.foldl
    (fun acc p => if na ≤ p.1 && p.1 < nb && p.2 = ' ' then (p.1 : Int) else acc)
    (-1)

/-- Python `s.strip()` on a `String`. -/
def pyStripStr (s : String) : String :=
  ⟨pyStrip s.toList⟩

/-- Python `s.startswith(p)` on character lists. -/
def pyStartsWith : List Char → List Char → Bool
  | _, [] => true
  | [], _ :: _ => false
  | c :: cs, p :: ps => c = p && pyStartsWith cs ps

/-! ## FileProcessor: the chunker (`_split_text`, lines 277–302)

`FileProcessor.__init__` fixes `self.chunk_size = 1000` and
`self.overlap_size = 200`; the splitting defs take them as the
parameters `W` (window) and `O` (overlap) and the theorems instantiate
them at those values. -/

/-- `self.chunk_size` as set in `FileProcessor.__init__`. -/
def chunk_size : Nat := 1000

/-- `self.overlap_size` as set in `FileProcessor.__init__`. -/
def overlap_size : Nat := 200

/-- The window end of one iteration of the `_split_text` loop:
`end = start + self.chunk_size`; if that is inside the text, the last
space strictly after `start` pulls it back (`if last_space > start:
end = last_space`). -/
def loopEnd (W : Nat) (text : List Char) (start : Int) : Int :=
  let e : Int := start + (W : Int)
  if e < (text.length : Int) then
    let ls := pyRfindSpace text start e
    if start < ls then ls else e
  else e

/-- The chunk one iteration produces: `text[start:end].strip()`. -/
def loopChunk (W : Nat) (text : List Char) (start : Int) : List Char :=
  pyStrip (pySlice text start (loopEnd W text start))

/-- The next value of `start`:
`start = end - self.overlap_size if end < len(text) else end`.
The source applies no clamp to this value. -/
def loopNext (W O : Nat) (text : List Char) (start : Int) : Int :=
  let e := loopEnd W text start
  if e < (text.length : Int) then e - (O : Int) else e

/-- The `while start < len(text)` loop of `_split_text`, with fuel:
`none` means the loop has not exited within `fuel` iterations. -/
def splitGo (W O : Nat) (text : List Char) :
    Nat → Int → List (List Char) → Option (List (List Char))
  | 0, start, acc =>
      if start < (text.length : Int) then none else some acc
  | fuel + 1, start, acc =>
      if start < (text.length : Int) then
        let c := loopChunk W text start
        splitGo W O text fuel (loopNext W O text start)
          (if c = [] then acc else acc ++ [c])
      else some acc

/-- `FileProcessor._split_text`: texts no longer than the window are
returned as the single chunk `[text]` (verbatim); longer texts go
through the windowing loop. -/
def _split_text (W O fuel : Nat) (text : List Char) : Option (List (List Char)) :=
  if text.length ≤ W then some [text] else splitGo W O text fuel 0 []

/-! ## FileProcessor: records and `_create_chunks` (lines 243–275)

An extracted record is either a Python dict (an ordered association of
field names to the `str` rendering of their values, as the extractors
of `_process_excel`/`_process_csv`/`_process_json` produce) or a
non-dict value rendered by `str(record)`. -/

/-- One extracted record. -/
inductive Rec where
  | dict (fields : List (String × String))
  | prim (s : String)
deriving DecidableEq

/-- Python `'content' in record` / `record['content']` on the field list:
the first binding of the key. -/
def fieldLookup (fields : List (String × String)) (k : String) : Option String :=
  match fields with
  | [] => none
  | (k', v) :: rest => if k' = k then some v else fieldLookup rest k

/-- The text `_create_chunks` derives from one record (lines 248–256):
a dict with a `content` field contributes that field; any other dict is
rendered as newline-joined `f"{k}: {v}"` pairs over the fields whose
name does not start with an underscore; a non-dict record is rendered
by `str(record)`. -/
def recordText : Rec → List Char
  | .dict fields =>
      match fieldLookup fields "content" with
      | some c => c.toList
      | none =>
          (String.intercalate "\n"
            ((fields.filter (fun kv => !pyStartsWith kv.1.toList "_".toList)).map
              (fun kv => kv.1 ++ ": " ++ kv.2))).toList
  | .prim s => s.toList

/-- Python `record.get('_source_type', 'unknown')` (line 269): defined
for a dict; on a non-dict record the attribute access raises
(`AttributeError`), embedded as `none`. -/
def recordSourceType : Rec → Option String
  | .dict fields => some ((fieldLookup fields "_source_type").getD "unknown")
  | .prim _ => none

/-- One chunk dict as `_create_chunks` builds it (lines 262–272):
`content`, `hash`, `index` (the length of the chunk list at append
time), and the metadata fields `record_index`, `chunk_index`,
`source_type`, `original_record`. -/
structure Chunk where
  content : List Char
  hash : List Char
  index : Nat
  record_index : Nat
  chunk_index : Nat
  source_type : String
  original_record : Rec
deriving DecidableEq

/-- The inner `for j, chunk_text in enumerate(text_chunks)` loop of
`_create_chunks` for the record at position `ri`: each chunk is
appended with `index := acc.length` at the moment of appending.
`none` stands for the `AttributeError` raised by
`record.get('_source_type', ...)` on a non-dict record. -/
def addRecordChunks (hash : List Char → List Char) (ri : Nat) (r : Rec) :
    Nat → List (List Char) → List Chunk → Option (List Chunk)
  | _, [], acc => some acc
  | j, t :: ts, acc =>
      match recordSourceType r with
      | none => none
      | some st =>
          addRecordChunks hash ri r (j + 1) ts
            (acc ++ [{ content := t, hash := hash t, index := acc.length,
                       record_index := ri, chunk_index := j,
                       source_type := st, original_record := r }])

/-- A Python call that can raise or fail to return: `ok` a value,
`exn` a raised exception, `noReturn` a call that never comes back
(the `_split_text` loop running forever). -/
inductive PyResult (α : Type) where
  | ok (a : α)
  | exn (e : String)
  | noReturn
deriving DecidableEq

/-- The outer `for i, record in enumerate(data)` loop of
`_create_chunks`. -/
def createGo (W O fuel : Nat) (hash : List Char → List Char) :
    Nat → List Rec → List Chunk → PyResult (List Chunk)
  | _, [], acc => .ok acc
  | i, r :: rs, acc =>
      match _split_text W O fuel (recordText r) with
      | none => .noReturn
      | some texts =>
          match addRecordChunks hash i r 0 texts acc with
          | none => .exn "AttributeError: record has no attribute get"
          | some acc' => createGo W O fuel hash (i + 1) rs acc'

/-- `FileProcessor._create_chunks`: the chunk dicts for a list of
extracted records.  The `hash` parameter is
`FileProcessor._get_content_hash` (a SHA-256 hex digest, an external
library call); every theorem below holds for an arbitrary hash
function. -/
def _create_chunks (W O fuel : Nat) (hash : List Char → List Char)
    (data : List Rec) : PyResult (List Chunk) :=
  createGo W O fuel hash 0 data []

/-! ## FileProcessor: the pipeline (`process_file`, lines 32–116) -/

/-- The `DataSource` row that `process_file` reads and updates. -/
structure DataSourceRow where
  id : String
  source_type : String
  processing_status : String
  processing_error : Option String
  records_count : Option Nat
deriving DecidableEq

/-- A persisted `DataChunk` row (lines 76–84): owning data source and
business plus the chunk dict whose `content`, `hash`, `metadata` and
`index` fields the row stores. -/
structure DataChunkRow where
  data_source_id : String
  business_id : String
  row : Chunk
deriving DecidableEq

/-- The slice of the relational store `process_file` touches: the
`DataSource` row selected by `data_source_id` (`none` when no row
matches) and the persisted `DataChunk` rows. -/
structure IngestDB where
  data_source : Option DataSourceRow
  chunks : List DataChunkRow
deriving DecidableEq

/-- `FileProcessor._index_chunks` (lines 309–320): the body only logs —
the vector-service call is commented out (`TODO: Implement actual
vector indexing`) and the surrounding `try`/`except` logs and discards
any error.  `wouldFail` is the error the vector indexing of this batch
would raise; it has no effect on anything. -/
def _index_chunks (_wouldFail : Option String) : Unit :=
  ()

/-- `FileProcessor.process_file`: the per-format extraction
(lines 53–69, pandas / PyPDF2 / python-docx — external libraries, with
the unsupported-extension `ValueError`) is the `extract` parameter:
`ok` the extracted records or `error` the raised exception.  Mirrors
the source's order: select the row, set status `processing` and
commit, extract, chunk, persist the chunk rows together with status
`completed` and `records_count` in one commit, and only then call
`_index_chunks`.  The `except` branch records status `error` with the
message.  `none` stands for a run that never returns (the chunking
loop diverging). -/
def process_file (W O fuel : Nat) (hash : List Char → List Char)
    (extract : Except String (List Rec)) (indexWouldFail : Option String)
    (data_source_id business_id : String) (db : IngestDB) :
    Option (Bool × IngestDB) :=
  match db.data_source with
  | none => some (false, db)
  | some ds =>
    let ds1 := { ds with processing_status := "processing" }
    let db1 := { db with data_source := some ds1 }
    let failDS := fun (e : String) =>
      { ds1 with processing_status := "error", processing_error := some e }
    match extract with
    | .error e =>
        some (false, { db1 with data_source := some (failDS e) })
    | .ok data =>
      match _create_chunks W O fuel hash data with
      | .noReturn => none
      | .exn e =>
          some (false, { db1 with data_source := some (failDS e) })
      | .ok chunks =>
          let db2 : IngestDB :=
            { data_source :=
                some { ds1 with processing_status := "completed",
                                records_count := some chunks.length },
              chunks := db1.chunks ++ chunks.map
                (fun c => { data_source_id := data_source_id,
                            business_id := business_id, row := c }) }
          let _ := _index_chunks indexWouldFail
          some (true, db2)

/-! ## C6: the chunking loop has no clamp and can run forever -/

/-- A text on which the `_split_text` loop never exits: 900 `a`s, one
space, 900 `b`s.  The first window is pulled back to the space at
index 900, so `start` becomes `900 - 200 = 700`; from 700 the window
end is again pulled back to the same space and `start` stays 700
forever. -/
def pathologicalText : List Char :=
  List.replicate 900 'a' ++ [' '] ++ List.replicate 900 'b'

set_option maxRecDepth 40000 in
lemma pat_next0 : loopNext 1000 200 pathologicalText 0 = 700 := by decide

set_option maxRecDepth 40000 in
lemma pat_next700 : loopNext 1000 200 pathologicalText 700 = 700 := by decide

set_option maxRecDepth 40000 in
lemma pat_active0 : (0 : Int) < (pathologicalText.length : Int) := by decide

set_option maxRecDepth 40000 in
lemma pat_active : (700 : Int) < (pathologicalText.length : Int) := by decide

lemma splitGo_stuck : ∀ fuel acc,
    splitGo 1000 200 pathologicalText fuel 700 acc = none := by
  intro fuel
  induction fuel with
  | zero =>
      intro acc
      simp only [splitGo, if_pos pat_active]
  | succ n ih =>
      intro acc
      simp only [splitGo, if_pos pat_active, pat_next700]
      exact ih _

set_option maxRecDepth 40000 in
/-- C6: the claim is false of the code — there is no clamp on
`end - O`, and on `pathologicalText` (with the source's window 1000
and overlap 200) the `_split_text` loop reaches `start = 700` and
recurs at `start = 700` forever: for every fuel the loop has not
exited, i.e. the Python loop never terminates. -/
theorem split_text_loop_diverges (fuel : Nat) :
    _split_text 1000 200 fuel pathologicalText = none := by
  have hlong : ¬ pathologicalText.length ≤ 1000 := by decide
  unfold _split_text
  rw [if_neg hlong]
  cases fuel with
  | zero => simp only [splitGo, if_pos pat_active0]
  | succ n =>
      simp only [splitGo, if_pos pat_active0, pat_next0]
      exact splitGo_stuck _ _

/-! ## C5: the short-text path of `_split_text` -/

/-- C5 (amended): for a text no longer than the window, `_split_text`
returns exactly one chunk, and that chunk is the text verbatim — the
`if len(text) <= self.chunk_size: return [text]` path performs no
trimming and no empty-chunk discard. -/
theorem split_short_text_returns_untrimmed (W O fuel : Nat) (t : List Char)
    (h : t.length ≤ W) : _split_text W O fuel t = some [t] := by
  simp [_split_text, h]

/-- Witness for `split_short_text_returns_untrimmed` at the three-character
text `" a "`. -/
theorem split_short_text_returns_untrimmed_witness :
    " a ".toList.length ≤ 1000 ∧
      _split_text 1000 200 0 " a ".toList = some [" a ".toList] :=
  ⟨by decide, split_short_text_returns_untrimmed 1000 200 0 " a ".toList (by decide)⟩

/-- C5 counterexample: on `" a "` (length 3 ≤ window 1000) the claim
fails — the single returned chunk is `" a "` itself, not the trimmed
`"a"`, so the result is not `[T.strip()]`. -/
theorem split_short_text_not_trimmed_counterexample :
    _split_text 1000 200 0 " a ".toList = some [" a ".toList] ∧
    pyStrip " a ".toList = "a".toList ∧
    _split_text 1000 200 0 " a ".toList ≠ some [pyStrip " a ".toList] := by
  decide

/-! ## C9: chunk ordinals are contiguous from 0 -/

/-- The invariant of the `_create_chunks` accumulator: every chunk's
`index` field equals its position in the list. -/
def ChunkIndexInv (l : List Chunk) : Prop :=
  ∀ k (hk : k < l.length), (l.get ⟨k, hk⟩).index = k

lemma chunkIndexInv_nil : ChunkIndexInv [] := by
  intro k hk
  simp at hk

lemma chunkIndexInv_append {l : List Chunk} {c : Chunk}
    (h : ChunkIndexInv l) (hc : c.index = l.length) :
    ChunkIndexInv (l ++ [c]) := by
  intro k hk
  rw [List.get_eq_getElem]
  have hk' : k < l.length + 1 := by simpa using hk
  rcases Nat.lt_or_ge k l.length with h1 | h1
  · rw [List.getElem_append_left h1]
    have := h k h1
    rw [List.get_eq_getElem] at this
    exact this
  · have hkl : k = l.length := Nat.le_antisymm (Nat.lt_succ_iff.mp hk') h1
    subst hkl
    simpa using hc

lemma addRecordChunks_inv (hash : List Char → List Char) (ri : Nat) (r : Rec) :
    ∀ (texts : List (List Char)) (j : Nat) (acc res : List Chunk),
      ChunkIndexInv acc → addRecordChunks hash ri r j texts acc = some res →
      ChunkIndexInv res := by
  intro texts
  induction texts with
  | nil =>
      intro j acc res h he
      simp only [addRecordChunks, Option.some.injEq] at he
      exact he ▸ h
  | cons t ts ih =>
      intro j acc res h he
      simp only [addRecordChunks] at he
      cases hst : recordSourceType r with
      | none => rw [hst] at he; exact absurd he (by simp)
      | some st =>
          rw [hst] at he
          exact ih (j + 1) _ res (chunkIndexInv_append h rfl) he

lemma createGo_inv (W O fuel : Nat) (hash : List Char → List Char) :
    ∀ (data : List Rec) (i : Nat) (acc res : List Chunk),
      ChunkIndexInv acc → createGo W O fuel hash i data acc = .ok res →
      ChunkIndexInv res := by
  intro data
  induction data with
  | nil =>
      intro i acc res h he
      simp only [createGo, PyResult.ok.injEq] at he
      exact he ▸ h
  | cons r rs ih =>
      intro i acc res h he
      cases hs : _split_text W O fuel (recordText r) with
      | none => simp [createGo, hs] at he
      | some texts =>
          cases ha : addRecordChunks hash i r 0 texts acc with
          | none => simp [createGo, hs, ha] at he
          | some acc' =>
              simp only [createGo, hs, ha] at he
              exact ih (i + 1) acc' res
                (addRecordChunks_inv hash i r texts 0 acc acc' h ha) he

/-- C9: whenever `_create_chunks` returns a chunk list, the chunk at
position `k` carries `index = k` — ordinals are contiguous, start at
0, and strictly increase across all records of the data source.  Holds
for every window, overlap, fuel and hash function. -/
theorem create_chunks_index_contiguous (W O fuel : Nat)
    (hash : List Char → List Char) (data : List Rec) (res : List Chunk)
    (h : _create_chunks W O fuel hash data = .ok res) :
    ∀ k (hk : k < res.length), (res.get ⟨k, hk⟩).index = k :=
  createGo_inv W O fuel hash data 0 [] res chunkIndexInv_nil h

/-- A concrete two-record extraction for the C9 witness: one record
with a `content` field, one rendered from its non-underscore fields. -/
def witnessRecords : List Rec :=
  [.dict [("content", "hello world")],
   .dict [("name", "Acme"), ("_source_type", "csv")]]

/-- The chunk list `_create_chunks` produces for `witnessRecords`. -/
def witnessChunks : List Chunk :=
  [{ content := "hello world".toList, hash := "hello world".toList,
     index := 0, record_index := 0, chunk_index := 0,
     source_type := "unknown",
     original_record := .dict [("content", "hello world")] },
   { content := "name: Acme".toList, hash := "name: Acme".toList,
     index := 1, record_index := 1, chunk_index := 0,
     source_type := "csv",
     original_record := .dict [("name", "Acme"), ("_source_type", "csv")] }]

/-- Witness for `create_chunks_index_contiguous` on `witnessRecords`. -/
theorem create_chunks_index_contiguous_witness :
    _create_chunks 1000 200 1 (fun s => s) witnessRecords = .ok witnessChunks ∧
      (witnessChunks.get ⟨1, by decide⟩).index = 1 :=
  ⟨by decide,
   create_chunks_index_contiguous 1000 200 1 (fun s => s) witnessRecords
     witnessChunks (by decide) 1 (by decide)⟩

/-! ## C4: an index failure does not roll anything back -/

/-- The three-record upload of the C4 scenario. -/
def ingestRecords : List Rec :=
  [.dict [("content", "alpha"), ("_source_type", "text")],
   .dict [("content", "beta notes"), ("_source_type", "text")],
   .dict [("content", "gamma"), ("_source_type", "text")]]

/-- The `DataSource` row of the C4 scenario, as selected at the start
of the run. -/
def ingestDS0 : DataSourceRow :=
  { id := "ds-1", source_type := "txt", processing_status := "pending",
    processing_error := none, records_count := none }

/-- The store before the C4 ingestion run: one pending `DataSource`
row, no chunk rows. -/
def ingestDB0 : IngestDB :=
  { data_source := some ingestDS0, chunks := [] }

/-- The C4 ingestion run: three records, and an `IndexUpstreamError`
pending on chunk 2 of 3 of the batch's vector upsert. -/
def c4Run : Option (Bool × IngestDB) :=
  process_file 1000 200 1 (fun s => s) (.ok ingestRecords)
    (some "IndexUpstreamError: upsert failed on chunk 2 of 3")
    "ds-1" "biz-1" ingestDB0

/-- C4 is false of the code: with an `IndexUpstreamError` pending on
chunk 2 of 3, `process_file` still returns `True`, the job ends
`completed` (not `failed`), no error message is recorded, and all 3
chunk rows are persisted (not zero) — the chunk rows and the
`completed` status are committed before `_index_chunks` runs, and
`_index_chunks` both has its vector call commented out and swallows
every exception. -/
theorem index_failure_still_completes_job :
    c4Run.map Prod.fst = some true ∧
    c4Run.map (fun r => r.2.data_source.map DataSourceRow.processing_status)
      = some (some "completed") ∧
    c4Run.map (fun r => r.2.data_source.map DataSourceRow.processing_error)
      = some (some none) ∧
    c4Run.map (fun r => r.2.data_source.map DataSourceRow.records_count)
      = some (some (some 3)) ∧
    c4Run.map (fun r => r.2.chunks.length) = some 3 := by
  decide

/-! ## VectorService (`vector_service.py`): `search_similar`, lines 94–132

The qdrant client and the OpenAI embedding call are external services:
`embed` is `generate_embedding` and `index_search` is
`self.client.search` applied to the collection — an arbitrary function
of the query vector, the query filter, the limit and the score
threshold, so that theorems can quantify over well- and mis-configured
indexes alike. -/

/-- The single `must`-condition filter `search_similar` builds:
`FieldCondition(key="metadata.business_id", match=MatchValue(value=business_id))`. -/
structure FieldFilter where
  key : String
  value : String
deriving DecidableEq

/-- One hit as the index returns it: score plus the payload stored by
`index_chunks` (`content`, `data_source_id`, `chunk_index`,
`metadata`). -/
structure VectorHit where
  score : Rat
  content : String
  data_source_id : String
  chunk_index : Nat
  metadata : List (String × String)
deriving DecidableEq

/-- One formatted result of `search_similar` (lines 123–130). -/
structure SearchResult where
  content : String
  score : Rat
  data_source_id : String
  metadata : List (String × String)
deriving DecidableEq

/-- `VectorService.search_similar`: embed the query, query the index
with the business filter, and format every hit — the source applies no
further filtering to the returned hits. -/
def search_similar (embed : String → List Rat)
    (index_search : List Rat → FieldFilter → Nat → Rat → List VectorHit)
    (query business_id : String) (limit : Nat) (score_threshold : Rat) :
    List SearchResult :=
  let query_embedding := embed query
  let hits := index_search query_embedding
    { key := "metadata.business_id", value := business_id } limit score_threshold
  hits.map (fun h =>
    { content := h.content, score := h.score,
      data_source_id := h.data_source_id, metadata := h.metadata })

/-- C1 (amended): business scoping of `search_similar` rests entirely
on the index-native filter — when every hit the index returns for the
business filter carries that business id in its metadata, so does
every formatted result.  There is no post-filter: the result list is
exactly the hit list reformatted. -/
theorem search_similar_business_scoped_of_index_filtered
    (embed : String → List Rat)
    (index_search : List Rat → FieldFilter → Nat → Rat → List VectorHit)
    (query business_id : String) (limit : Nat) (score_threshold : Rat)
    (hfiltered : ∀ h ∈ index_search (embed query)
        { key := "metadata.business_id", value := business_id } limit score_threshold,
        fieldLookup h.metadata "business_id" = some business_id) :
    ∀ r ∈ search_similar embed index_search query business_id limit score_threshold,
      fieldLookup r.metadata "business_id" = some business_id := by
  intro r hr
  simp only [search_similar, List.mem_map] at hr
  obtain ⟨h, hmem, rfl⟩ := hr
  exact hfiltered h hmem

/-- A trivial embedding for concrete instances. -/
def embed0 : String → List Rat := fun _ => []

/-- A hit whose metadata does carry the requesting business id. -/
def goodHit : VectorHit :=
  { score := 1, content := "doc", data_source_id := "ds-1", chunk_index := 0,
    metadata := [("business_id", "biz-1")] }

/-- A well-behaved index: every hit belongs to `biz-1`. -/
def goodIndex : List Rat → FieldFilter → Nat → Rat → List VectorHit :=
  fun _ _ _ _ => [goodHit]

/-- The formatted result of `goodHit`. -/
def goodResult : SearchResult :=
  { content := "doc", score := 1, data_source_id := "ds-1",
    metadata := [("business_id", "biz-1")] }

/-- Witness for `search_similar_business_scoped_of_index_filtered` on a
concrete one-hit index. -/
theorem search_similar_business_scoped_witness :
    fieldLookup goodResult.metadata "business_id" = some "biz-1" :=
  search_similar_business_scoped_of_index_filtered embed0 goodIndex
    "q" "biz-1" 10 0 (by decide) goodResult (by decide)

/-- A hit indexed for a different business (`biz-other`), as a
misconfigured or misapplying index would return it. -/
def rogueHit : VectorHit :=
  { score := 1, content := "other tenant doc", data_source_id := "ds-9",
    chunk_index := 0, metadata := [("business_id", "biz-other")] }

/-- An index that ignores the query filter. -/
def rogueIndex : List Rat → FieldFilter → Nat → Rat → List VectorHit :=
  fun _ _ _ _ => [rogueHit]

/-- The formatted result of `rogueHit`. -/
def rogueResult : SearchResult :=
  { content := "other tenant doc", score := 1, data_source_id := "ds-9",
    metadata := [("business_id", "biz-other")] }

/-- C1 counterexample: when the underlying index misapplies the filter
and returns a hit indexed for `biz-other`, `search_similar` for
`biz-1` includes that hit in its results — no post-filter guards
against index misconfiguration, refuting the claim as stated. -/
theorem search_similar_no_post_filter_counterexample :
    search_similar embed0 rogueIndex "q" "biz-1" 10 0 = [rogueResult] ∧
    fieldLookup rogueResult.metadata "business_id" = some "biz-other" ∧
    some "biz-other" ≠ some "biz-1" := by
  decide

/-! ## MCPServer (`mcp_server.py`)

One message dict is a `MsgData` (`data.get(k)` is the `Option` field,
`data.get("limit', 5)` is `limit.getD 5`).  The services the handlers
call — `DatabaseQueryService` (`get_agent_bindings`,
`get_databases_info`, `execute_structured_query`,
`get_database_schema`, `execute_raw_query`) and `VectorSearchService`
(`semantic_search`), whose modules are not part of the staged sources —
are a `Services` record of arbitrary functions; an `Except.error`
outcome is the call raising, which is what the handlers' own
`try`/`except` blocks anticipate.  `get_agent_bindings` stands for the
binding lookup already mapped to its database-id list (the source maps
`binding.database_id` over the returned rows). -/

/-- The fields of one parsed request message. -/
structure MsgData where
  operation : Option String := none
  request_id : Option String := none
  agent_id : Option String := none
  business_id : Option String := none
  database_id : Option String := none
  query : Option String := none
  sql : Option String := none
  limit : Option Nat := none
deriving DecidableEq

/-- One row of `get_databases_info`. -/
structure DBInfo where
  id : String
  name : String
  description : String
  schema_definition : String
deriving DecidableEq

/-- One response dict, by its `type` tag (lines 127–130, 138–151,
164–175, 189–205, 220–244, 256–273, 286–311). -/
inductive Response where
  | error (msg : String)
  | auth_success (agent_id : String) (available_databases : Nat)
  | database_list (databases : List DBInfo)
  | query_result (database_id : String) (results : List String)
  | search_result (query : Option String) (results : List String)
  | schema_info (database_id : String) (schema : String)
  | sql_result (database_id : String) (query : String) (results : List String)
deriving DecidableEq

/-- The external services the handlers delegate to. -/
structure Services where
  get_agent_bindings : String → String → Except String (List String)
  get_databases_info : List String → Except String (List DBInfo)
  execute_structured_query : String → Option String → Except String (List String)
  get_database_schema : String → Except String String
  execute_raw_query : String → String → Except String (List String)
  semantic_search : Option String → List String → Nat → Except String (List String)

/-- The server's mutable per-process state: `self.connections` (by
connection id) and `self.agent_bindings` (connection id → authorized
database ids). -/
structure ServerState where
  connections : List String
  agent_bindings : List (String × List String)
deriving DecidableEq

/-- Decidable equality of `Except` outcomes, for evaluating concrete
handler runs. -/
instance {ε α : Type} [DecidableEq ε] [DecidableEq α] :
    DecidableEq (Except ε α) := fun x y =>
  match x, y with
  | .ok a, .ok b =>
      if h : a = b then .isTrue (congrArg Except.ok h)
      else .isFalse (fun he => h (Except.ok.inj he))
  | .error a, .error b =>
      if h : a = b then .isTrue (congrArg Except.error h)
      else .isFalse (fun he => h (Except.error.inj he))
  | .ok _, .error _ => .isFalse (fun he => Except.noConfusion he)
  | .error _, .ok _ => .isFalse (fun he => Except.noConfusion he)

/-- Python dict assignment `self.agent_bindings[connection_id] = v`. -/
def setBinding (m : List (String × List String)) (k : String)
    (v : List String) : List (String × List String) :=
  (k, v) :: m.filter (fun p => p.1 != k)

/-- Python truthiness of an optional string (`if database_id:`):
false for an absent value and for the empty string. -/
def truthy : Option String → Bool
  | some s => s != ""
  | none => false

/-- The `execute_query` safety check (line 294):
`sql_query.strip().upper().startswith("SELECT")`. -/
def isSelectQuery (sql : String) : Bool :=
  pyStartsWith ((pyStrip sql.toList).map Char.toUpper) "SELECT".toList

/-- `MCPServer.handle_authenticate` (lines 132–151).  The binding
lookup is outside any `try`, so its exception propagates
(`Except.error`). -/
def handle_authenticate (svc : Services) (data : MsgData) (connId : String)
    (st : ServerState) : Except String (Response × ServerState) :=
  match data.agent_id, data.business_id with
  | some a, some b =>
      if a = "" ∨ b = "" then
        .ok (.error "Missing agent_id or business_id", st)
      else
        match svc.get_agent_bindings a b with
        | .error e => .error e
        | .ok dbIds =>
            .ok (.auth_success a dbIds.length,
              { st with agent_bindings := setBinding st.agent_bindings connId dbIds })
  | _, _ => .ok (.error "Missing agent_id or business_id", st)

/-- `MCPServer.handle_list_databases` (lines 153–175).  The
`get_databases_info` call is outside any `try`, so its exception
propagates. -/
def handle_list_databases (svc : Services) (data : MsgData) (connId : String)
    (st : ServerState) : Except String (Response × ServerState) :=
  match st.agent_bindings.lookup connId with
  | none => .ok (.error "Not authenticated", st)
  | some database_ids =>
      match svc.get_databases_info database_ids with
      | .error e => .error e
      | .ok dbs => .ok (.database_list dbs, st)

/-- `MCPServer.handle_query_database` (lines 177–205): authentication
check, then `if database_id not in self.agent_bindings[connection_id]`
(an absent id is not in the list), then the structured query inside
`try` (a raised error becomes a `Query execution failed` response). -/
def handle_query_database (svc : Services) (data : MsgData) (connId : String)
    (st : ServerState) : Except String (Response × ServerState) :=
  match st.agent_bindings.lookup connId with
  | none => .ok (.error "Not authenticated", st)
  | some bindings =>
      match data.database_id with
      | none => .ok (.error "Access denied to this database", st)
      | some d =>
          if bindings.contains d then
            match svc.execute_structured_query d data.query with
            | .ok results => .ok (.query_result d results, st)
            | .error e => .ok (.error ("Query execution failed: " ++ e), st)
          else .ok (.error "Access denied to this database", st)

/-- `MCPServer.handle_search_knowledge` (lines 207–244): the
access check applies only to a truthy `database_id`
(`if database_id and database_id not in ...`); the search runs over
`[database_id] if database_id else` the connection's whole binding
set, with `limit = data.get("limit", 5)`, inside `try`. -/
def handle_search_knowledge (svc : Services) (data : MsgData) (connId : String)
    (st : ServerState) : Except String (Response × ServerState) :=
  match st.agent_bindings.lookup connId with
  | none => .ok (.error "Not authenticated", st)
  | some bindings =>
      if truthy data.database_id &&
          !(bindings.contains (data.database_id.getD "")) then
        .ok (.error "Access denied to this database", st)
      else
        let database_ids :=
          if truthy data.database_id then [data.database_id.getD ""] else bindings
        match svc.semantic_search data.query database_ids (data.limit.getD 5) with
        | .ok results => .ok (.search_result data.query results, st)
        | .error e => .ok (.error ("Search failed: " ++ e), st)

/-- `MCPServer.handle_get_schema` (lines 246–273). -/
def handle_get_schema (svc : Services) (data : MsgData) (connId : String)
    (st : ServerState) : Except String (Response × ServerState) :=
  match st.agent_bindings.lookup connId with
  | none => .ok (.error "Not authenticated", st)
  | some bindings =>
      match data.database_id with
      | none => .ok (.error "Access denied to this database", st)
      | some d =>
          if bindings.contains d then
            match svc.get_database_schema d with
            | .ok schema => .ok (.schema_info d schema, st)
            | .error e => .ok (.error ("Schema retrieval failed: " ++ e), st)
          else .ok (.error "Access denied to this database", st)

/-- `MCPServer.handle_execute_query` (lines 275–311): authentication
and access checks, then inside `try` the prefix-only safety check
(line 294) and, when it passes, the raw query.  An absent `sql` makes
`sql_query.strip()` raise inside the `try`, so it surfaces as a
`SQL execution failed` response. -/
def handle_execute_query (svc : Services) (data : MsgData) (connId : String)
    (st : ServerState) : Except String (Response × ServerState) :=
  match st.agent_bindings.lookup connId with
  | none => .ok (.error "Not authenticated", st)
  | some bindings =>
      match data.database_id with
      | none => .ok (.error "Access denied to this database", st)
      | some d =>
          if bindings.contains d then
            match data.sql with
            | none =>
                .ok (.error
                  "SQL execution failed: 'NoneType' object has no attribute 'strip'",
                  st)
            | some sql =>
                if isSelectQuery sql then
                  match svc.execute_raw_query d sql with
                  | .ok results => .ok (.sql_result d sql results, st)
                  | .error e => .ok (.error ("SQL execution failed: " ++ e), st)
                else .ok (.error "Only SELECT queries are allowed", st)
          else .ok (.error "Access denied to this database", st)

/-- `MCPServer.process_operation` (lines 110–130): dispatch by
operation name. -/
def process_operation (svc : Services) (data : MsgData) (connId : String)
    (st : ServerState) : Except String (Response × ServerState) :=
  if data.operation = some "authenticate" then
    handle_authenticate svc data connId st
  else if data.operation = some "list_databases" then
    handle_list_databases svc data connId st
  else if data.operation = some "query_database" then
    handle_query_database svc data connId st
  else if data.operation = some "search_knowledge" then
    handle_search_knowledge svc data connId st
  else if data.operation = some "get_schema" then
    handle_get_schema svc data connId st
  else if data.operation = some "execute_query" then
    handle_execute_query svc data connId st
  else
    .ok (.error ("Unknown operation: " ++
      (match data.operation with | some s => s | none => "None")), st)

/-- One message as sent back on the socket: the response dict and its
`request_id` field — `none` when the dict has no such field, which is
how `send_error` builds its payload. -/
structure SentMessage where
  response : Response
  request_id : Option String
deriving DecidableEq

/-- `MCPServer.send_error` (lines 313–319): a bare
`{"type": "error", "error": msg}` payload with no `request_id`
field. -/
def send_error (msg : String) : SentMessage :=
  { response := .error msg, request_id := none }

/-- `MCPServer.handle_message` (lines 90–108): a non-parseable message
(`none`) gets `send_error "Invalid JSON format"`; a parsed message is
dispatched, the response gets `request_id` attached, and an exception
escaping the dispatch gets `send_error` with an
`Internal server error` text — without the request id. -/
def handle_message (svc : Services) (message : Option MsgData)
    (connId : String) (st : ServerState) : SentMessage × ServerState :=
  match message with
  | none => (send_error "Invalid JSON format", st)
  | some data =>
      match process_operation svc data connId st with
      | .ok (resp, st') =>
          ({ response := resp, request_id := data.request_id }, st')
      | .error e => (send_error ("Internal server error: " ++ e), st)

/-! ## C3: unauthenticated operations -/

/-- C3: an unauthenticated connection (no entry in
`agent_bindings`) issuing any of the five data operations receives
exactly the `Not authenticated` error response — never a
`database_list`, `query_result`, `search_result`, `schema_info` or
`sql_result` — and the server state (its `connections` registry
included) is unchanged: the error does not close the connection. -/
theorem unauthenticated_operation_returns_not_authenticated
    (svc : Services) (data : MsgData) (connId : String) (st : ServerState)
    (hnoauth : st.agent_bindings.lookup connId = none)
    (hop : data.operation ∈ [some "list_databases", some "query_database",
      some "search_knowledge", some "get_schema", some "execute_query"]) :
    process_operation svc data connId st = .ok (.error "Not authenticated", st) := by
  simp only [List.mem_cons, List.mem_singleton, List.not_mem_nil, or_false] at hop
  rcases hop with h | h | h | h | h <;>
    simp [process_operation, h, handle_list_databases, handle_query_database,
      handle_search_knowledge, handle_get_schema, handle_execute_query, hnoauth]

/-- A probe service environment for concrete instances: the raw query
and the semantic search echo their inputs, so which databases and
statements reach them is visible in the response. -/
def svcProbe : Services :=
  { get_agent_bindings := fun _ _ => .ok ["db1"],
    get_databases_info := fun _ => .ok [],
    execute_structured_query := fun _ _ => .ok ["structured row"],
    get_database_schema := fun _ => .ok "schema",
    execute_raw_query := fun _ sql => .ok ["ran: " ++ sql],
    semantic_search := fun _ dbs _ => .ok dbs }

/-- A connected but never-authenticated state. -/
def stUnauth : ServerState :=
  { connections := ["c9"], agent_bindings := [] }

/-- Witness for `unauthenticated_operation_returns_not_authenticated`:
a `query_database` request on a connection that never authenticated. -/
theorem unauthenticated_operation_witness :
    process_operation svcProbe
      { operation := some "query_database", request_id := some "r3",
        database_id := some "db1" } "c9" stUnauth
      = .ok (.error "Not authenticated", stUnauth) :=
  unauthenticated_operation_returns_not_authenticated svcProbe
    { operation := some "query_database", request_id := some "r3",
      database_id := some "db1" } "c9" stUnauth (by decide) (by decide)

/-! ## C2: unbound database ids are denied uniformly -/

/-- C2: on an authenticated connection, a `query_database` for a
`database_id` outside the resolved binding set is answered with the
`Access denied` error and an unchanged state, and the whole response
is the same under any two service environments — the denial happens
before any service is consulted, so it cannot depend on whether the
database exists. -/
theorem query_database_denies_unbound_id_uniformly
    (svc svc2 : Services) (data : MsgData) (connId : String)
    (st : ServerState) (bindings : List String)
    (hauth : st.agent_bindings.lookup connId = some bindings)
    (hnotin : ∀ d, data.database_id = some d → bindings.contains d = false) :
    handle_query_database svc data connId st
        = .ok (.error "Access denied to this database", st) ∧
    handle_query_database svc data connId st
        = handle_query_database svc2 data connId st := by
  have key : ∀ s : Services, handle_query_database s data connId st
      = .ok (.error "Access denied to this database", st) := by
    intro s
    cases hdb : data.database_id with
    | none => simp [handle_query_database, hauth, hdb]
    | some d =>
        have hd' : d ∉ bindings := by simpa using hnotin d hdb
        simp [handle_query_database, hauth, hdb, hd']
  exact ⟨key svc, (key svc).trans (key svc2).symm⟩

/-- A service environment in which database `db-exists` exists and
answers structured queries. -/
def svcDbExists : Services :=
  { svcProbe with
    execute_structured_query := fun _ _ => .ok ["row of db-exists"] }

/-- A service environment in which no database exists. -/
def svcDbMissing : Services :=
  { svcProbe with
    execute_structured_query := fun _ _ => .error "database does not exist" }

/-- The authenticated state of the C2 witness: connection `c1` is
bound to `db-bound` only. -/
def stBound : ServerState :=
  { connections := ["c1"], agent_bindings := [("c1", ["db-bound"])] }

/-- Witness for `query_database_denies_unbound_id_uniformly`: querying
the unbound `db-exists` is denied, identically whether the structured
query service knows that database or not. -/
theorem query_database_denies_unbound_id_witness :
    handle_query_database svcDbExists
        { operation := some "query_database", database_id := some "db-exists" }
        "c1" stBound
      = .ok (.error "Access denied to this database", stBound) ∧
    handle_query_database svcDbExists
        { operation := some "query_database", database_id := some "db-exists" }
        "c1" stBound
      = handle_query_database svcDbMissing
        { operation := some "query_database", database_id := some "db-exists" }
        "c1" stBound :=
  query_database_denies_unbound_id_uniformly svcDbExists svcDbMissing
    { operation := some "query_database", database_id := some "db-exists" }
    "c1" stBound ["db-bound"] (by decide)
    (by intro d hd; injection hd with h; subst h; decide)

/-! ## C7: the `execute_query` safety check is prefix-only -/

/-- C7 (amended): on an authenticated connection with an authorized
`database_id`, `execute_query` rejects exactly the statements whose
stripped, upper-cased text does not start with `SELECT` — so every
standalone `INSERT`/`UPDATE`/`DELETE`/`DROP` statement is answered with
the `Only SELECT queries are allowed` error, independent of every
service, and is never executed — while any statement that does start
with `SELECT` is handed to `execute_raw_query`, even when mutating
statements are appended after the `SELECT`. -/
theorem execute_query_select_gate
    (svc : Services) (data : MsgData) (connId : String) (st : ServerState)
    (bindings : List String) (d sql : String)
    (hauth : st.agent_bindings.lookup connId = some bindings)
    (hdb : data.database_id = some d) (hin : d ∈ bindings)
    (hsql : data.sql = some sql) :
    (isSelectQuery sql = false →
      handle_execute_query svc data connId st
        = .ok (.error "Only SELECT queries are allowed", st)) ∧
    (isSelectQuery sql = true →
      handle_execute_query svc data connId st
        = .ok ((match svc.execute_raw_query d sql with
                | .ok results => Response.sql_result d sql results
                | .error e => Response.error ("SQL execution failed: " ++ e)),
               st)) := by
  constructor
  · intro hsel
    simp [handle_execute_query, hauth, hdb, hin, hsql, hsel]
  · intro hsel
    cases hr : svc.execute_raw_query d sql <;>
      simp [handle_execute_query, hauth, hdb, hin, hsql, hsel, hr]

/-- The authenticated request of the C7 instances, parameterised by
the statement. -/
def sqlMsg (sql : String) : MsgData :=
  { operation := some "execute_query", request_id := some "r7",
    database_id := some "db-bound", sql := some sql }

/-- Witness for `execute_query_select_gate`: the standalone mutating
statement `DROP TABLE users` is rejected and not executed. -/
theorem execute_query_select_gate_witness :
    handle_execute_query svcProbe (sqlMsg "DROP TABLE users") "c1" stBound
      = .ok (.error "Only SELECT queries are allowed", stBound) :=
  (execute_query_select_gate svcProbe (sqlMsg "DROP TABLE users") "c1" stBound
    ["db-bound"] "db-bound" "DROP TABLE users"
    (by decide) (by decide) (by decide) (by decide)).1 (by decide)

/-- C7 counterexample: the compound statement
`SELECT 1; DROP TABLE users` — a mutating statement appended after a
`SELECT` — passes the prefix check and is executed by
`execute_raw_query` (the probe service's echo shows it ran), refuting
the claim that every statement that is not a read-only retrieval is
rejected. -/
theorem execute_query_select_gate_counterexample :
    handle_execute_query svcProbe (sqlMsg "SELECT 1; DROP TABLE users")
        "c1" stBound
      = .ok (.sql_result "db-bound" "SELECT 1; DROP TABLE users"
          ["ran: SELECT 1; DROP TABLE users"], stBound) := by
  decide

/-! ## C8: the request-id echo -/

/-- C8 (amended): a response produced by the operation dispatcher
echoes the message's `request_id` verbatim; but when the dispatch
raises — or the message is not parseable — the reply is built by
`send_error`, which carries no `request_id` at all. -/
theorem handle_message_request_id_echo
    (svc : Services) (data : MsgData) (connId : String) (st : ServerState) :
    (∀ resp st', process_operation svc data connId st = .ok (resp, st') →
      handle_message svc (some data) connId st
        = ({ response := resp, request_id := data.request_id }, st')) ∧
    (∀ e, process_operation svc data connId st = .error e →
      handle_message svc (some data) connId st
        = (send_error ("Internal server error: " ++ e), st)) := by
  constructor
  · intro resp st' h
    simp [handle_message, h]
  · intro e h
    simp [handle_message, h]

/-- A service environment whose binding lookup raises (the relational
store is down). -/
def svcDown : Services :=
  { svcProbe with get_agent_bindings := fun _ _ => .error "db connection lost" }

/-- The authenticate request of the C8 counterexample. -/
def authMsg : MsgData :=
  { operation := some "authenticate", request_id := some "r8",
    agent_id := some "agent-1", business_id := some "biz-1" }

/-- C8 counterexample: a well-formed `authenticate` message carrying
`request_id = "r8"` whose binding lookup raises is answered through
`send_error` — its reply has no `request_id` field, so the id is not
echoed. -/
theorem handle_message_request_id_counterexample :
    handle_message svcDown (some authMsg) "c1" stBound
      = (send_error "Internal server error: db connection lost", stBound) ∧
    (handle_message svcDown (some authMsg) "c1" stBound).1.request_id = none ∧
    authMsg.request_id = some "r8" := by
  decide

/-! ## C10: `search_knowledge` scoping and the default limit -/

/-- C10 (amended): on an authenticated connection, `search_knowledge`
without a `database_id` is not rejected — it searches the connection's
whole binding set, with limit 5 when `limit` is omitted; a supplied
non-empty `database_id` searches exactly that one database when bound
and is denied when not; but a supplied empty-string `database_id` is
falsy in the handler's check, so it is treated like an omitted one. -/
theorem search_knowledge_scope_and_limit
    (svc : Services) (data : MsgData) (connId : String) (st : ServerState)
    (bindings : List String)
    (hauth : st.agent_bindings.lookup connId = some bindings) :
    (data.database_id = none → data.limit = none →
      handle_search_knowledge svc data connId st
        = .ok ((match svc.semantic_search data.query bindings 5 with
                | .ok results => Response.search_result data.query results
                | .error e => Response.error ("Search failed: " ++ e)), st)) ∧
    (∀ d, data.database_id = some d → d ≠ "" → d ∈ bindings →
      handle_search_knowledge svc data connId st
        = .ok ((match svc.semantic_search data.query [d] (data.limit.getD 5) with
                | .ok results => Response.search_result data.query results
                | .error e => Response.error ("Search failed: " ++ e)), st)) ∧
    (∀ d, data.database_id = some d → d ≠ "" → d ∉ bindings →
      handle_search_knowledge svc data connId st
        = .ok (.error "Access denied to this database", st)) := by
  refine ⟨fun hdb hlim => ?_, fun d hdb hne hm => ?_, fun d hdb hne hm => ?_⟩
  · cases hr : svc.semantic_search data.query bindings 5 <;>
      simp [handle_search_knowledge, hauth, hdb, hlim, truthy, hr]
  · cases hr : svc.semantic_search data.query [d] (data.limit.getD 5) <;>
      simp [handle_search_knowledge, hauth, hdb, hne, hm, truthy, hr]
  · simp [handle_search_knowledge, hauth, hdb, hne, hm, truthy]

/-- The two-database authenticated state of the C10 instances. -/
def stTwoDb : ServerState :=
  { connections := ["c1"], agent_bindings := [("c1", ["db1", "db2"])] }

/-- Witness for `search_knowledge_scope_and_limit`: with `database_id`
and `limit` omitted, the search runs over both bound databases with
limit 5 (the probe service echoes the database list it was given). -/
theorem search_knowledge_scope_witness :
    handle_search_knowledge svcProbe
        { operation := some "search_knowledge", query := some "order status" }
        "c1" stTwoDb
      = .ok (.search_result (some "order status") ["db1", "db2"], stTwoDb) :=
  (search_knowledge_scope_and_limit svcProbe
    { operation := some "search_knowledge", query := some "order status" }
    "c1" stTwoDb ["db1", "db2"] (by decide)).1 rfl rfl

/-- C10 counterexample: a supplied `database_id` of `""` — which is in
no binding set — is not denied and does not restrict the search: the
handler's truthiness test treats it as absent and searches the whole
binding set, refuting the claim that every supplied `database_id`
restricts the search to that single database after the authorization
check. -/
theorem search_knowledge_empty_id_counterexample :
    handle_search_knowledge svcProbe
        { operation := some "search_knowledge", query := some "order status",
          database_id := some "" }
        "c1" stTwoDb
      = .ok (.search_result (some "order status") ["db1", "db2"], stTwoDb) ∧
    (["db1", "db2"] : List String).contains "" = false := by
  decide
